import Mathlib

/-!
Shallow embedding of the BT-NES-Advantage firmware core
(`src/BLEJoystick.cpp`, `src/main.cpp`, `include/BLEJoystick.h`):
the HID report encoding, the device state machine with its state-change
callback, the main-loop hat/axis derivation, and the idle timeout check.
Bytes are modelled as `Nat` (with explicit masking where the C code
masks or converts), signed 16-bit axes as `Int`.
-/

namespace NESAdvantage

/-! ### Device states (BLEJoystick.h lines 17-20) -/

def DEVICE_STOPPED : Nat := 0
def DEVICE_IDLE : Nat := 1
def DEVICE_ADVERTISING : Nat := 2
def DEVICE_CONNECTED : Nat := 3

/-- The observable state of one `BLEJoystick` object: the device-state
byte, battery level, the two packed button bytes, the eight signed axes
(only the first two reach the wire report), the hat byte, whether a
state-change callback has been registered, and the chronological list of
states at which the registered callback was invoked (the C++ callback
takes no arguments; it observes the new state via `getState()`, so we
record that state per invocation). -/
structure Joystick where
  deviceState : Nat
  batteryLevel : Nat
  buttons0 : Nat
  buttons1 : Nat
  ax0 : Int
  ax1 : Int
  ax2 : Int
  ax3 : Int
  ax4 : Int
  ax5 : Int
  ax6 : Int
  ax7 : Int
  hat : Nat
  callbackSet : Bool
  callbackLog : List Nat
deriving DecidableEq, Repr

/-- `BLEJoystick::BLEJoystick` (BLEJoystick.cpp lines 64-104): sets
`deviceState = DEVICE_STOPPED`, `batteryLevel = 100`, zeroes `buttons`,
`axes` and `hat`; no callback is registered yet.  (The BLE-stack calls in
the constructor touch none of these fields.) -/
def mkJoystick : Joystick :=
  { deviceState := DEVICE_STOPPED
    batteryLevel := 100
    buttons0 := 0, buttons1 := 0
    ax0 := 0, ax1 := 0, ax2 := 0, ax3 := 0
    ax4 := 0, ax5 := 0, ax6 := 0, ax7 := 0
    hat := 0
    callbackSet := false
    callbackLog := [] }

/-- `BLEJoystick::setStateChangeCallback` (BLEJoystick.cpp lines 272-274). -/
def setStateChangeCallback (js : Joystick) : Joystick :=
  { js with callbackSet := true }

/-- `BLEJoystick::updateDeviceState` (BLEJoystick.cpp lines 277-284):
if the new state differs from the current one, store it and invoke the
registered callback (if any); otherwise do nothing. -/
def updateDeviceState (js : Joystick) (newState : Nat) : Joystick :=
  if js.deviceState ≠ newState then
    if js.callbackSet then
      { js with deviceState := newState
                callbackLog := js.callbackLog ++ [newState] }
    else { js with deviceState := newState }
  else js

/-- `BLEJoystick::start` (BLEJoystick.cpp lines 107-111). -/
def start (js : Joystick) : Joystick :=
  if js.deviceState = DEVICE_STOPPED then
    updateDeviceState js DEVICE_IDLE
  else js

/-- `BLEJoystick::startAdvertising` (BLEJoystick.cpp lines 122-133):
guarded on `DEVICE_IDLE`; the BLE advertising calls touch no modelled
state. -/
def startAdvertising (js : Joystick) : Joystick :=
  if js.deviceState = DEVICE_IDLE then
    updateDeviceState js DEVICE_ADVERTISING
  else js

/-- `BLEJoystick::stopAdvertising` (BLEJoystick.cpp lines 136-142). -/
def stopAdvertising (js : Joystick) : Joystick :=
  if js.deviceState = DEVICE_ADVERTISING then
    updateDeviceState js DEVICE_IDLE
  else js

/-- `BLEJoystick::stop` (BLEJoystick.cpp lines 114-119). -/
def stop (js : Joystick) : Joystick :=
  if js.deviceState ≠ DEVICE_STOPPED then
    updateDeviceState (stopAdvertising js) DEVICE_STOPPED
  else js

/-- `BLEJoystick::ServerCallbacks::onConnect` (BLEJoystick.cpp lines
289-292). -/
def onConnect (js : Joystick) : Joystick :=
  updateDeviceState js DEVICE_CONNECTED

/-- `BLEJoystick::ServerCallbacks::onDisconnect` (BLEJoystick.cpp lines
294-297). -/
def onDisconnect (js : Joystick) : Joystick :=
  updateDeviceState js DEVICE_IDLE

/-- The six state-transition requests of the state machine, for
quantifying over "every transition request". -/
inductive Op where
  | opStart | opStop | opStartAdvertising | opStopAdvertising
  | opConnect | opDisconnect
deriving DecidableEq, Repr

def applyOp : Op → Joystick → Joystick
  | Op.opStart, js => start js
  | Op.opStop, js => stop js
  | Op.opStartAdvertising, js => startAdvertising js
  | Op.opStopAdvertising, js => stopAdvertising js
  | Op.opConnect, js => onConnect js
  | Op.opDisconnect, js => onDisconnect js

/-! ### HID input state setters and report encoding -/

/-- `BLEJoystick::setButtons` (BLEJoystick.cpp lines 145-164): byte 0 is
rebuilt from zero with bit `i` or-ed in when button `i+1` is true
(`i < 8`); byte 1 is rebuilt from zero with bits 0-3 for buttons 9-12. -/
def setButtons (js : Joystick)
    (b1 b2 b3 b4 b5 b6 b7 b8 b9 b10 b11 b12 : Bool) : Joystick :=
  let n0 : Nat := 0
  let n0 := if b1 then n0 ||| (1 <<< 0) else n0
  let n0 := if b2 then n0 ||| (1 <<< 1) else n0
  let n0 := if b3 then n0 ||| (1 <<< 2) else n0
  let n0 := if b4 then n0 ||| (1 <<< 3) else n0
  let n0 := if b5 then n0 ||| (1 <<< 4) else n0
  let n0 := if b6 then n0 ||| (1 <<< 5) else n0
  let n0 := if b7 then n0 ||| (1 <<< 6) else n0
  let n0 := if b8 then n0 ||| (1 <<< 7) else n0
  let n1 : Nat := 0
  let n1 := if b9 then n1 ||| (1 <<< 0) else n1
  let n1 := if b10 then n1 ||| (1 <<< 1) else n1
  let n1 := if b11 then n1 ||| (1 <<< 2) else n1
  let n1 := if b12 then n1 ||| (1 <<< 3) else n1
  { js with buttons0 := n0, buttons1 := n1 }

/-- `BLEJoystick::setAxes` (BLEJoystick.cpp lines 167-177). -/
def setAxes (js : Joystick)
    (x y z rZ rX rY slider1 slider2 : Int) : Joystick :=
  { js with ax0 := x, ax1 := y, ax2 := z, ax3 := rZ
            ax4 := rX, ax5 := rY, ax6 := slider1, ax7 := slider2 }

/-- `BLEJoystick::setHat` (BLEJoystick.cpp lines 180-182):
`hat = hatDirection <= 8 ? hatDirection : 0`. -/
def setHat (js : Joystick) (hatDirection : Nat) : Joystick :=
  { js with hat := if hatDirection ≤ 8 then hatDirection else 0 }

/-- `BLEJoystick::setBatteryLevel` (BLEJoystick.cpp lines 254-256):
`batteryLevel = level > 100 ? 100 : level`. -/
def setBatteryLevel (js : Joystick) (level : Nat) : Joystick :=
  { js with batteryLevel := if level > 100 then 100 else level }

/-- C conversion of a signed 16-bit value to `uint8_t`: value mod 256. -/
def intToByte (v : Int) : Nat := (v % 256).toNat

/-- The 5-byte report assembled inside `BLEJoystick::notifyHIDReport`
(BLEJoystick.cpp lines 187-193): `[buttons[0], buttons[1], hat & 0x0F,
(uint8_t) axes[0], (uint8_t) axes[1]]`. -/
def hidReportBytes (js : Joystick) : List Nat :=
  [js.buttons0, js.buttons1, js.hat &&& 0x0F,
   intToByte js.ax0, intToByte js.ax1]

/-- `BLEJoystick::notifyHIDReport` (BLEJoystick.cpp lines 185-251):
only when `deviceState == DEVICE_CONNECTED` is the report assembled and
sent over the transport; the object's fields are never written.  The
result pairs the (unchanged) object with the bytes sent, `none` when
nothing was sent. -/
def notifyHIDReport (js : Joystick) : Joystick × Option (List Nat) :=
  if js.deviceState = DEVICE_CONNECTED then
    (js, some (hidReportBytes js))
  else (js, none)

/-- `BLEJoystick::notifyBatteryLevel` (BLEJoystick.cpp lines 259-264):
only when connected is the one-byte battery level sent; no field is
written. -/
def notifyBatteryLevel (js : Joystick) : Joystick × Option Nat :=
  if js.deviceState = DEVICE_CONNECTED then
    (js, some js.batteryLevel)
  else (js, none)

/-! ### Main-loop input derivation (main.cpp) -/

/-- One snapshot of the eight NES buttons, in the physical shift-register
order of `buttonState[0..7]` (main.cpp lines 32-39): A, B, Select, Start,
Up, Down, Left, Right. -/
structure ButtonSnapshot where
  a : Bool
  b : Bool
  select : Bool
  start : Bool
  up : Bool
  down : Bool
  left : Bool
  right : Bool
deriving DecidableEq, Repr

/-- The hat-direction derivation of `loop` (main.cpp lines 114-133): the
four diagonal checks come first, then the four single-direction checks,
else 0. -/
def dpadDirection (bs : ButtonSnapshot) : Nat :=
  if bs.up && bs.right then 2
  else if bs.right && bs.down then 4
  else if bs.down && bs.left then 6
  else if bs.left && bs.up then 8
  else if bs.up then 1
  else if bs.right then 3
  else if bs.down then 5
  else if bs.left then 7
  else 0

/-- The X-axis derivation of `loop` (main.cpp line 136). -/
def axisX (bs : ButtonSnapshot) : Int :=
  if bs.right then 127 else if bs.left then -127 else 0

/-- The Y-axis derivation of `loop` (main.cpp line 137). -/
def axisY (bs : ButtonSnapshot) : Int :=
  if bs.down then 127 else if bs.up then -127 else 0

/-- The state-update part of `loop` run on an input change (main.cpp
lines 139-156): while connected, push hat and buttons and notify (the
derived `x`/`y` locals are computed at lines 136-137 but `setAxes` is
never called); while idle, re-enter advertising.  Returns the updated
joystick and the report bytes sent, if any. -/
def loopOnChange (js : Joystick) (bs : ButtonSnapshot) :
    Joystick × Option (List Nat) :=
  if js.deviceState = DEVICE_CONNECTED then
    let js := setHat js (dpadDirection bs)
    let js := setButtons js bs.a bs.b false false false false false false
        false false bs.select bs.start
    notifyHIDReport js
  else if js.deviceState = DEVICE_IDLE then
    (startAdvertising js, none)
  else
    (js, none)

/-! ### Idle timeout check (main.cpp `checkTimers`) -/

def IDLE_TIMEOUT : Nat := 30000

/-- 32-bit unsigned subtraction, as C computes `currentTime -
lastActivityTime` on `unsigned long` (32-bit on this target).  Both
operands are `millis()` values, hence below `2^32`. -/
def wsub32 (a b : Nat) : Nat := (a + 2 ^ 32 - b % 2 ^ 32) % 2 ^ 32

/-- The idle-timeout branch of `checkTimers` (main.cpp lines 261-269):
power-down fires exactly when the device state is `DEVICE_IDLE` and
`currentTime - lastActivityTime > IDLE_TIMEOUT`. -/
def idlePowerDownTriggered (st lastActivityTime currentTime : Nat) : Bool :=
  st == DEVICE_IDLE && decide (wsub32 currentTime lastActivityTime > IDLE_TIMEOUT)

/-! ### Helper lemmas -/

set_option maxRecDepth 4096 in
/-- For byte-sized values, the `& 0x0F` mask in the encoder is
reduction modulo 16. -/
theorem mask15_eq_mod16 : ∀ h < 256, h &&& 0x0F = h % 16 := by decide

theorem updateDeviceState_deviceState (js : Joystick) (s : Nat) :
    (updateDeviceState js s).deviceState = s := by
  unfold updateDeviceState
  split
  · split <;> rfl
  · next h => exact of_not_not h

theorem updateDeviceState_self (js : Joystick) (s : Nat)
    (h : js.deviceState = s) : updateDeviceState js s = js := by
  simp [updateDeviceState, h]

theorem startAdvertising_of_ne (js : Joystick)
    (h : js.deviceState ≠ DEVICE_IDLE) : startAdvertising js = js := by
  simp [startAdvertising, h]

/-! ### Claims -/

/-- C7: for every input value, `setHat` stores the value unchanged when
it is at most 8 and stores 0 (centered) when it is greater than 8; it is
total (never fails). -/
theorem setHat_clamps (js : Joystick) (h : Nat) :
    (h ≤ 8 → (setHat js h).hat = h) ∧ (8 < h → (setHat js h).hat = 0) := by
  constructor
  · intro hh; simp [setHat, hh]
  · intro hh; simp [setHat]; omega

/-- Witness for C7 at hat values 5 and 200. -/
theorem setHat_clamps_witness :
    (setHat mkJoystick 5).hat = 5 ∧ (setHat mkJoystick 200).hat = 0 :=
  ⟨(setHat_clamps mkJoystick 5).1 (by decide),
   (setHat_clamps mkJoystick 200).2 (by decide)⟩

/-- C8: byte 2 of the encoded report is `hat & 0x0F`, i.e. `hat % 16`
for any byte-sized hat value — a 4-bit mask, not a clamp; for stored
hat values 0-8 the byte equals the hat value, so its low nibble is the
value and its high nibble is 0. -/
theorem hat_byte_masked (js : Joystick) (hlt : js.hat < 256) :
    (hidReportBytes js)[2]? = some (js.hat &&& 0x0F) ∧
    js.hat &&& 0x0F = js.hat % 16 ∧
    (js.hat &&& 0x0F) / 16 = 0 ∧
    (js.hat ≤ 8 → (hidReportBytes js)[2]? = some js.hat) := by
  have hm : js.hat &&& 0x0F = js.hat % 16 := mask15_eq_mod16 js.hat hlt
  refine ⟨rfl, hm, ?_, ?_⟩
  · rw [hm]
    exact Nat.div_eq_of_lt (Nat.mod_lt _ (by norm_num))
  · intro h8
    have : js.hat &&& 0x0F = js.hat := by
      rw [hm]; exact Nat.mod_eq_of_lt (by omega)
    simp [hidReportBytes, this]

/-- Witness for C8 at hat values 12 (mask keeps 12, no clamp to 0)
and 5 (identity on the 0-8 range). -/
theorem hat_byte_masked_witness :
    (hidReportBytes { mkJoystick with hat := 12 })[2]? = some (12 &&& 0x0F) ∧
    (hidReportBytes { mkJoystick with hat := 5 })[2]? = some 5 :=
  ⟨(hat_byte_masked { mkJoystick with hat := 12 } (by decide)).1,
   (hat_byte_masked { mkJoystick with hat := 5 } (by decide)).2.2.2 (by decide)⟩

/-- C6: in every device state other than Connected, `notifyHIDReport`
and `notifyBatteryLevel` send nothing to the transport and leave the
joystick unchanged; the notify is performed only when Connected. -/
theorem notify_skipped_unless_connected (js : Joystick)
    (h : js.deviceState ≠ DEVICE_CONNECTED) :
    notifyHIDReport js = (js, none) ∧ notifyBatteryLevel js = (js, none) := by
  constructor
  · simp [notifyHIDReport, h]
  · simp [notifyBatteryLevel, h]

/-- Witness for C6 on a freshly constructed (Stopped) joystick. -/
theorem notify_skipped_unless_connected_witness :
    notifyHIDReport mkJoystick = (mkJoystick, none) ∧
    notifyBatteryLevel mkJoystick = (mkJoystick, none) :=
  notify_skipped_unless_connected mkJoystick (by decide)

/-- C5 counterexample: with the device Idle since `lastActivityTime = 0`,
at `t = 30000` ms (which satisfies the claim's `t ≥ 30000`) the check
`currentTime - lastActivityTime > IDLE_TIMEOUT` is strict, so power-down
is NOT triggered. -/
theorem idle_timeout_not_at_30000 :
    idlePowerDownTriggered DEVICE_IDLE 0 30000 = false := by decide

/-- C5 amended: with the device Idle since `lastActivityTime = 0` and no
later activity, the timer check triggers power-down exactly at the times
`t` with `t > 30000` ms (i.e. at every `t ≥ 30001` and never at
`t ≤ 30000`), for any millis value `t < 2^32`. -/
theorem idle_timeout_strictly_after_30000 (t : Nat) (ht : t < 2 ^ 32) :
    idlePowerDownTriggered DEVICE_IDLE 0 t = true ↔ 30000 < t := by
  have hw : wsub32 t 0 = t := by
    unfold wsub32
    simp only [Nat.zero_mod, Nat.sub_zero, Nat.add_mod_right]
    exact Nat.mod_eq_of_lt ht
  simp [idlePowerDownTriggered, hw, IDLE_TIMEOUT]

/-- Witness for C5's amended theorem at `t = 30001`. -/
theorem idle_timeout_strictly_after_30000_witness :
    idlePowerDownTriggered DEVICE_IDLE 0 30001 = true :=
  (idle_timeout_strictly_after_30000 30001 (by norm_num)).mpr (by norm_num)

/-- C3: from the freshly constructed (Stopped) joystick with the
callback registered, `start()`, then `startAdvertising()`, then the
transport connect event leave the device Connected; the callback fired
exactly 3 times, at Idle, Advertising and Connected, each invocation's
state differing from its predecessor (and the first from the initial
Stopped state). -/
theorem start_advertise_connect_scenario :
    (onConnect (startAdvertising (start
        (setStateChangeCallback mkJoystick)))).deviceState
      = DEVICE_CONNECTED ∧
    (onConnect (startAdvertising (start
        (setStateChangeCallback mkJoystick)))).callbackLog
      = [DEVICE_IDLE, DEVICE_ADVERTISING, DEVICE_CONNECTED] ∧
    (onConnect (startAdvertising (start
        (setStateChangeCallback mkJoystick)))).callbackLog.length = 3 ∧
    List.Chain' (fun x y => x ≠ y)
      (DEVICE_STOPPED :: (onConnect (startAdvertising (start
        (setStateChangeCallback mkJoystick)))).callbackLog) := by
  refine ⟨rfl, rfl, rfl, ?_⟩
  have hlog : (onConnect (startAdvertising (start
      (setStateChangeCallback mkJoystick)))).callbackLog
    = [DEVICE_IDLE, DEVICE_ADVERTISING, DEVICE_CONNECTED] := rfl
  rw [hlog]
  norm_num [List.chain'_cons, List.chain'_singleton,
    DEVICE_STOPPED, DEVICE_IDLE, DEVICE_ADVERTISING, DEVICE_CONNECTED]

/-- C4: a transition request whose application leaves the device state
unchanged is a complete no-op — the joystick (including the callback
log) is unchanged, so no callback fired; in particular, from Idle with
a registered callback, calling `startAdvertising()` twice produces the
same joystick as calling it once, with exactly one new callback-log
entry for the pair of calls. -/
theorem noop_transition_requests :
    (∀ (op : Op) (js : Joystick),
        (applyOp op js).deviceState = js.deviceState → applyOp op js = js) ∧
    (∀ js : Joystick, js.deviceState = DEVICE_IDLE →
        startAdvertising (startAdvertising js) = startAdvertising js ∧
        (js.callbackSet = true →
          (startAdvertising (startAdvertising js)).callbackLog
            = js.callbackLog ++ [DEVICE_ADVERTISING])) := by
  constructor
  · intro op js h
    cases op <;> simp only [applyOp] at h ⊢
    case opStart =>
      by_cases hc : js.deviceState = DEVICE_STOPPED
      · exfalso
        have hs : (start js).deviceState = DEVICE_IDLE := by
          simp [start, hc, updateDeviceState_deviceState]
        rw [hs, hc] at h
        simp [DEVICE_IDLE, DEVICE_STOPPED] at h
      · simp [start, hc]
    case opStop =>
      by_cases hc : js.deviceState = DEVICE_STOPPED
      · simp [stop, hc]
      · exfalso
        have hs : (stop js).deviceState = DEVICE_STOPPED := by
          simp [stop, hc, updateDeviceState_deviceState]
        rw [hs] at h
        exact hc h.symm
    case opStartAdvertising =>
      by_cases hc : js.deviceState = DEVICE_IDLE
      · exfalso
        have hs : (startAdvertising js).deviceState = DEVICE_ADVERTISING := by
          simp [startAdvertising, hc, updateDeviceState_deviceState]
        rw [hs, hc] at h
        simp [DEVICE_ADVERTISING, DEVICE_IDLE] at h
      · simp [startAdvertising, hc]
    case opStopAdvertising =>
      by_cases hc : js.deviceState = DEVICE_ADVERTISING
      · exfalso
        have hs : (stopAdvertising js).deviceState = DEVICE_IDLE := by
          simp [stopAdvertising, hc, updateDeviceState_deviceState]
        rw [hs, hc] at h
        simp [DEVICE_ADVERTISING, DEVICE_IDLE] at h
      · simp [stopAdvertising, hc]
    case opConnect =>
      have hs : (onConnect js).deviceState = DEVICE_CONNECTED :=
        updateDeviceState_deviceState js DEVICE_CONNECTED
      rw [hs] at h
      exact updateDeviceState_self js DEVICE_CONNECTED h.symm
    case opDisconnect =>
      have hs : (onDisconnect js).deviceState = DEVICE_IDLE :=
        updateDeviceState_deviceState js DEVICE_IDLE
      rw [hs] at h
      exact updateDeviceState_self js DEVICE_IDLE h.symm
  · intro js h
    have h1 : (startAdvertising js).deviceState = DEVICE_ADVERTISING := by
      simp [startAdvertising, h, updateDeviceState_deviceState]
    have h2 : startAdvertising (startAdvertising js) = startAdvertising js :=
      startAdvertising_of_ne _ (by rw [h1]; decide)
    refine ⟨h2, fun hcb => ?_⟩
    rw [h2]
    simp [startAdvertising, h, updateDeviceState, hcb,
          DEVICE_IDLE, DEVICE_ADVERTISING]

/-- Witness for C4: a redundant connect event on a Connected joystick is
a no-op, and the double `startAdvertising()` from Idle yields a single
callback-log entry. -/
theorem noop_transition_requests_witness :
    applyOp Op.opConnect
        { mkJoystick with deviceState := DEVICE_CONNECTED, callbackSet := true }
      = { mkJoystick with deviceState := DEVICE_CONNECTED, callbackSet := true } ∧
    (startAdvertising (startAdvertising
        { mkJoystick with deviceState := DEVICE_IDLE, callbackSet := true })).callbackLog
      = [] ++ [DEVICE_ADVERTISING] :=
  ⟨noop_transition_requests.1 Op.opConnect
      { mkJoystick with deviceState := DEVICE_CONNECTED, callbackSet := true }
      (by decide),
   (noop_transition_requests.2
      { mkJoystick with deviceState := DEVICE_IDLE, callbackSet := true }
      rfl).2 rfl⟩

/-- C2: the hat derivation in `loop` follows the diagonal-before-cardinal
priority of its if-chain: Up+Right gives 2 (unconditionally, being the
first check); Right+Down gives 4, Down+Left gives 6 and Left+Up gives 8
whenever no earlier diagonal check fires; exactly one directional button
held gives 1/3/5/7; none gives 0; and Up+Right both held (Down, Left
released) gives hat 2 with derived X = 127 and Y = -127. -/
theorem dpad_diagonal_priority (bs : ButtonSnapshot) :
    (bs.up = true ∧ bs.right = true → dpadDirection bs = 2) ∧
    (bs.right = true ∧ bs.down = true ∧ bs.up = false →
      dpadDirection bs = 4) ∧
    (bs.down = true ∧ bs.left = true ∧ bs.right = false →
      dpadDirection bs = 6) ∧
    (bs.left = true ∧ bs.up = true ∧ bs.right = false ∧ bs.down = false →
      dpadDirection bs = 8) ∧
    (bs.up = true ∧ bs.right = false ∧ bs.down = false ∧ bs.left = false →
      dpadDirection bs = 1) ∧
    (bs.right = true ∧ bs.up = false ∧ bs.down = false ∧ bs.left = false →
      dpadDirection bs = 3) ∧
    (bs.down = true ∧ bs.up = false ∧ bs.right = false ∧ bs.left = false →
      dpadDirection bs = 5) ∧
    (bs.left = true ∧ bs.up = false ∧ bs.right = false ∧ bs.down = false →
      dpadDirection bs = 7) ∧
    (bs.up = false ∧ bs.right = false ∧ bs.down = false ∧ bs.left = false →
      dpadDirection bs = 0) ∧
    (bs.up = true ∧ bs.right = true ∧ bs.down = false ∧ bs.left = false →
      dpadDirection bs = 2 ∧ axisX bs = 127 ∧ axisY bs = -127) := by
  obtain ⟨a, b, sel, st, u, d, l, r⟩ := bs
  revert a b sel st u d l r
  decide

/-- Witness for C2: the Up+Right snapshot yields hat 2, X = 127,
Y = -127. -/
theorem dpad_diagonal_priority_witness :
    dpadDirection ⟨false, false, false, false, true, false, false, true⟩ = 2 ∧
    axisX ⟨false, false, false, false, true, false, false, true⟩ = 127 ∧
    axisY ⟨false, false, false, false, true, false, false, true⟩ = -127 :=
  (dpad_diagonal_priority
      ⟨false, false, false, false, true, false, false, true⟩).2.2.2.2.2.2.2.2.2
    ⟨rfl, rfl, rfl, rfl⟩

/-- C10: with Up and Down both held and Left, Right released, the
if-chain derives hat 1 (Up wins: Up is checked first among the
cardinals) while the axis expression derives Y = +127 (Down wins: Down
is the outer conditional) — the two encodings report contradictory
directions. -/
theorem upDown_hat_axis_conflict (bs : ButtonSnapshot)
    (hu : bs.up = true) (hd : bs.down = true)
    (hl : bs.left = false) (hr : bs.right = false) :
    dpadDirection bs = 1 ∧ axisY bs = 127 := by
  constructor
  · simp [dpadDirection, hu, hd, hl, hr]
  · simp [axisY, hd]

/-- Witness for C10: the Up+Down snapshot. -/
theorem upDown_hat_axis_conflict_witness :
    dpadDirection ⟨false, false, false, false, true, true, false, false⟩ = 1 ∧
    axisY ⟨false, false, false, false, true, true, false, false⟩ = 127 :=
  upDown_hat_axis_conflict
    ⟨false, false, false, false, true, true, false, false⟩ rfl rfl rfl rfl

set_option maxRecDepth 8192 in
theorem pack0_testBit : ∀ (b1 b2 b3 b4 b5 b6 b7 b8 : Bool) (i : Fin 8),
    Nat.testBit (setButtons mkJoystick b1 b2 b3 b4 b5 b6 b7 b8
        false false false false).buttons0 i.val
      = [b1, b2, b3, b4, b5, b6, b7, b8].get i := by decide

set_option maxRecDepth 8192 in
theorem pack1_testBit : ∀ (b9 b10 b11 b12 : Bool) (j : Fin 4),
    Nat.testBit (setButtons mkJoystick false false false false
        false false false false b9 b10 b11 b12).buttons1 j.val
      = [b9, b10, b11, b12].get j := by decide

set_option maxRecDepth 8192 in
theorem pack1_lt16 : ∀ (b9 b10 b11 b12 : Bool),
    (setButtons mkJoystick false false false false
        false false false false b9 b10 b11 b12).buttons1 < 16 := by decide

/-- C1: after `setButtons`, bit `i` of byte 0 (`i < 8`) is set iff
button `i+1` is true; buttons 9-12 appear as bits 0-3 of byte 1; bits
4-7 (and above) of byte 1 are always 0; and the encoding is pure and
deterministic — two joysticks given the same logical input (same 12
button booleans, same hat, same X/Y axes) yield the same 5-byte
report. -/
theorem setButtons_encoding (js : Joystick)
    (b1 b2 b3 b4 b5 b6 b7 b8 b9 b10 b11 b12 : Bool) :
    (∀ i : Fin 8,
      Nat.testBit (setButtons js b1 b2 b3 b4 b5 b6 b7 b8
          b9 b10 b11 b12).buttons0 i.val
        = [b1, b2, b3, b4, b5, b6, b7, b8].get i) ∧
    (∀ j : Fin 4,
      Nat.testBit (setButtons js b1 b2 b3 b4 b5 b6 b7 b8
          b9 b10 b11 b12).buttons1 j.val
        = [b9, b10, b11, b12].get j) ∧
    (∀ k : Nat, 4 ≤ k →
      Nat.testBit (setButtons js b1 b2 b3 b4 b5 b6 b7 b8
          b9 b10 b11 b12).buttons1 k = false) ∧
    (∀ js' : Joystick, js.hat = js'.hat → js.ax0 = js'.ax0 →
      js.ax1 = js'.ax1 →
      hidReportBytes (setButtons js b1 b2 b3 b4 b5 b6 b7 b8 b9 b10 b11 b12)
        = hidReportBytes
            (setButtons js' b1 b2 b3 b4 b5 b6 b7 b8 b9 b10 b11 b12)) := by
  refine ⟨?_, ?_, ?_, ?_⟩
  · intro i
    exact pack0_testBit b1 b2 b3 b4 b5 b6 b7 b8 i
  · intro j
    exact pack1_testBit b9 b10 b11 b12 j
  · intro k hk
    have hlt : (setButtons js b1 b2 b3 b4 b5 b6 b7 b8
        b9 b10 b11 b12).buttons1 < 16 := pack1_lt16 b9 b10 b11 b12
    have h16 : (16 : Nat) ≤ 2 ^ k :=
      calc (16 : Nat) = 2 ^ 4 := by norm_num
        _ ≤ 2 ^ k := Nat.pow_le_pow_right (by norm_num) hk
    exact Nat.testBit_lt_two_pow (lt_of_lt_of_le hlt h16)
  · intro js' hh h0 h1
    simp [hidReportBytes, setButtons, hh, h0, h1]

/-- Witness for C1: buttons 1, 2, 9 and 12 pressed — bit 1 of byte 0 is
set, bit 5 of byte 1 is clear, and the report is input-determined. -/
theorem setButtons_encoding_witness :
    Nat.testBit (setButtons mkJoystick true true false false false false
        false false true false false true).buttons1 5 = false ∧
    hidReportBytes (setButtons mkJoystick true true false false false false
        false false true false false true)
      = hidReportBytes (setButtons mkJoystick true true false false false
          false false false true false false true) :=
  ⟨(setButtons_encoding mkJoystick true true false false false false
      false false true false false true).2.2.1 5 (by norm_num),
   (setButtons_encoding mkJoystick true true false false false false
      false false true false false true).2.2.2 mkJoystick rfl rfl rfl⟩

/-- C9: while Connected (with the axes still at their constructed zero
values — `setAxes` is never called by the firmware), an input change to
a snapshot with only the A button pressed produces the HID report bytes
`[0x01, 0x00, 0x00, 0x00, 0x00]`: button slot 1 set, hat centered, both
axes zero. -/
theorem buttonA_end_to_end (js : Joystick)
    (hst : js.deviceState = DEVICE_CONNECTED)
    (hx : js.ax0 = 0) (hy : js.ax1 = 0) :
    (loopOnChange js ⟨true, false, false, false, false, false, false, false⟩).2
      = some [0x01, 0x00, 0x00, 0x00, 0x00] := by
  simp [loopOnChange, hst, dpadDirection, setHat, setButtons,
        notifyHIDReport, hidReportBytes, intToByte, hx, hy]

/-- Witness for C9 on a connected, freshly constructed joystick. -/
theorem buttonA_end_to_end_witness :
    (loopOnChange { mkJoystick with deviceState := DEVICE_CONNECTED }
        ⟨true, false, false, false, false, false, false, false⟩).2
      = some [0x01, 0x00, 0x00, 0x00, 0x00] :=
  buttonA_end_to_end { mkJoystick with deviceState := DEVICE_CONNECTED }
    rfl rfl rfl

end NESAdvantage
